import Mathlib

/-!
Shallow embedding of the extraction / fetch pipeline of the
Ecommerce-Price-Tracker repository (src/app/scrapers/*, src/app/models/schemas.py,
src/add_product.py), with theorems settling the frozen claims about it.

Strings are modelled as `List Char`; Python float values as exact decimals
(an integer mantissa over a power of ten — every value the scrapers build
comes from decimal text, so this is the value the parsed text denotes);
BeautifulSoup documents as a flat list of elements in document order, each
carrying its own tag / id / classes / attributes together with those of its
ancestors, which gives semantics to every CSS selector the code uses
(simple compound selectors and one-level descendant selectors).
-/

abbrev Str := List Char

/-- Python's `str.lower()` (ASCII-faithful model). -/
def lowerStr (s : Str) : Str := s.map Char.toLower

/-- Python's `str.strip()`: drop leading and trailing whitespace. -/
def pyStrip (s : Str) : Str :=
  ((s.dropWhile Char.isWhitespace).reverse.dropWhile Char.isWhitespace).reverse

/-- Does `s` start with `pat`? (Python `str.startswith`.) -/
def startsWithStr : Str → Str → Bool
  | [], _ => true
  | _ :: _, [] => false
  | p :: ps, c :: cs => p == c && startsWithStr ps cs

/-- Python's substring test `pat in s` (contiguous occurrence). -/
def inStr (pat : Str) : Str → Bool
  | [] => pat.isEmpty
  | s@(_ :: rest) => startsWithStr pat s || inStr pat rest

/-- Numeric value of a digit string (most significant first). -/
def digitsVal (ds : Str) : Nat := ds.foldl (fun a c => a * 10 + (c.toNat - 48)) 0

/-- Exact value of a Python float built from decimal text: `num / 10 ^ exp`.
Kept unnormalized so that all arithmetic is plain integer arithmetic. -/
structure PyFloat where
  num : Int
  exp : Nat
deriving DecidableEq, Repr

/-- The rational value a `PyFloat` denotes. -/
def PyFloat.toRat (d : PyFloat) : ℚ := (d.num : ℚ) / ((10 ^ d.exp : Nat) : ℚ)

/-- Tail of `float()` parsing: an optional exponent part `e[+-]digits`
terminating the string, applied to an already parsed mantissa. -/
def parseSignedExp (mant : PyFloat) (r : Str) : Option PyFloat :=
  match r with
  | '+' :: ds =>
      if ds.isEmpty || !ds.all Char.isDigit then none
      else some ⟨mant.num * (10 ^ digitsVal ds : Nat), mant.exp⟩
  | '-' :: ds =>
      if ds.isEmpty || !ds.all Char.isDigit then none
      else some ⟨mant.num, mant.exp + digitsVal ds⟩
  | ds =>
      if ds.isEmpty || !ds.all Char.isDigit then none
      else some ⟨mant.num * (10 ^ digitsVal ds : Nat), mant.exp⟩

/-- Optional exponent suffix after the mantissa; `[]` means end of input. -/
def parseExpPart (mant : PyFloat) (s : Str) : Option PyFloat :=
  match s with
  | [] => some mant
  | 'e' :: r => parseSignedExp mant r
  | 'E' :: r => parseSignedExp mant r
  | _ => none

/-- `float()` on an unsigned literal: `digits`, `digits.digits`, `.digits`,
`digits.`, each optionally followed by an exponent; at least one mantissa
digit is required. -/
def parseUnsignedFloat (s : Str) : Option PyFloat :=
  let ip := s.takeWhile Char.isDigit
  let r1 := s.dropWhile Char.isDigit
  match r1 with
  | '.' :: r2 =>
      let fp := r2.takeWhile Char.isDigit
      let r3 := r2.dropWhile Char.isDigit
      if ip.isEmpty && fp.isEmpty then none
      else parseExpPart ⟨digitsVal ip * (10 ^ fp.length : Nat) + digitsVal fp, fp.length⟩ r3
  | _ =>
      if ip.isEmpty then none
      else parseExpPart ⟨digitsVal ip, 0⟩ r1

/-- Model of Python `float(s)` on already-stripped text, returning the exact
decimal value it denotes, or `none` on `ValueError`.  The `inf` / `nan`
words and underscore digit separators are not modelled: no call site can
feed them (every argument is filtered to digits, dots, commas and signs
before parsing). -/
def parsePyFloat (s : Str) : Option PyFloat :=
  match s with
  | '+' :: r => parseUnsignedFloat r
  | '-' :: r => (parseUnsignedFloat r).map (fun d => ⟨-d.num, d.exp⟩)
  | r => parseUnsignedFloat r

example : parsePyFloat "37490.00".data = some ⟨3749000, 2⟩ := by decide
example : parsePyFloat "1299.99".data = some ⟨129999, 2⟩ := by decide
example : parsePyFloat ".99".data = some ⟨99, 2⟩ := by decide
example : parsePyFloat "".data = none := by decide
example : parsePyFloat "1.2.3".data = none := by decide
example : parsePyFloat "-5.25".data = some ⟨-525, 2⟩ := by decide
example : parsePyFloat "1e3".data = some ⟨1000, 0⟩ := by decide
example : PyFloat.toRat ⟨3749000, 2⟩ = 37490 := by norm_num [PyFloat.toRat]

/-! ## Document model (BeautifulSoup) and CSS selector semantics -/

/-- The attributes of one HTML element that selector matching consults. -/
structure ElemCore where
  tag : Str
  idAttr : Option Str
  classes : List Str
  attrs : List (Str × Str)
deriving DecidableEq, Repr

/-- One element of a parsed document: its own attributes, those of its
ancestors (for descendant selectors), and its text content (`get_text()`). -/
structure Elem where
  core : ElemCore
  ancestors : List ElemCore
  text : Str
deriving DecidableEq, Repr

/-- A parsed document: elements in document order, the `<title>` element if
any, and the raw serialized markup (`str(soup)`), used by regex fallbacks. -/
structure Doc where
  elems : List Elem
  titleElem : Option Elem
  raw : Str
deriving DecidableEq, Repr

/-- A compound CSS selector without combinators: optional tag name,
optional id, required classes, required attribute values. -/
structure SimpleSel where
  tagName : Option Str
  idSel : Option Str
  classSel : List Str
  attrSel : List (Str × Str)
deriving DecidableEq, Repr

/-- A selector as used by the scrapers: either one compound selector or a
descendant pair `A B`. -/
inductive Sel
  | simple (s : SimpleSel)
  | descend (anc : SimpleSel) (tgt : SimpleSel)
deriving DecidableEq, Repr

def simpleMatches (s : SimpleSel) (c : ElemCore) : Bool :=
  (match s.tagName with | none => true | some t => c.tag == t) &&
  (match s.idSel with | none => true | some i => c.idAttr == some i) &&
  s.classSel.all (fun cl => c.classes.contains cl) &&
  s.attrSel.all (fun kv => c.attrs.lookup kv.1 == some kv.2)

def selMatches : Sel → Elem → Bool
  | .simple s, e => simpleMatches s e.core
  | .descend a t, e => simpleMatches t e.core && e.ancestors.any (simpleMatches a)

/-- `soup.select_one(sel)`: first element in document order matching `sel`. -/
def selectOne (d : Doc) (s : Sel) : Option Elem := d.elems.find? (selMatches s)

def sCls (c : String) : SimpleSel := ⟨none, none, [c.data], []⟩
def sTag (t : String) : SimpleSel := ⟨some t.data, none, [], []⟩
def selCls (c : String) : Sel := .simple (sCls c)
def selId (i : String) : Sel := .simple ⟨none, some i.data, [], []⟩
def selTag1Cls (t c : String) : Sel := .simple ⟨some t.data, none, [c.data], []⟩
def selTag2Cls (t c₁ c₂ : String) : Sel := .simple ⟨some t.data, none, [c₁.data, c₂.data], []⟩
def selAttr (k v : String) : Sel := .simple ⟨none, none, [], [(k.data, v.data)]⟩

/-! ## GenericScraper (src/app/scrapers/generic_scraper.py) -/

namespace GenericScraper

/-- `GenericScraper.PRICE_SELECTORS`, in source order. -/
def PRICE_SELECTORS : List Sel := [
  selCls "price",
  selCls "product-price",
  selCls "offer-price",
  selCls "price-current",
  selCls "actual-price",
  selId "priceblock_ourprice",
  selId "priceblock_dealprice",
  selCls "a-price",
  selCls "a-price-whole",
  .descend (sCls "a-price") (sCls "a-offscreen"),
  .descend (sCls "priceToPay") (sCls "a-offscreen"),
  .descend (sCls "apexPriceToPay") (sCls "a-offscreen"),
  selId "price_inside_buybox",
  selTag1Cls "span" "a-price-whole",
  selTag2Cls "span" "a-size-medium" "a-color-price",
  selAttr "data-testid" "product-price",
  selCls "product-price-value",
  selCls "current-price"]

/-- `GenericScraper.TITLE_SELECTORS`, in source order. -/
def TITLE_SELECTORS : List Sel := [
  selTag1Cls "h1" "product-title",
  selTag1Cls "h1" "product-name",
  selTag1Cls "h1" "product_title",
  selId "productTitle",
  selCls "product-name",
  selCls "product-title",
  selAttr "data-testid" "product-title",
  selCls "title"]

/-- `GenericScraper.IMAGE_SELECTORS`, in source order. -/
def IMAGE_SELECTORS : List Sel := [
  .descend (sCls "product-image") (sTag "img"),
  .descend (sCls "product-main-image") (sTag "img"),
  selId "main-image",
  selId "product-image",
  selCls "gallery-image",
  selAttr "data-testid" "product-image",
  selCls "main-product-image"]

/-- The recognized currency glyphs, i.e. the regex class `[$€£¥₹]`. -/
def glyphChars : List Char := ['$', '€', '£', '¥', '₹']

/-- The table `currency_map = {. . .}` together with its `.get(key, 'USD')`
default: maps a currency-symbol string to a 3-letter code. -/
def currencyCodeOfSymbol (s : Str) : Str :=
  if s == "$".data then "USD".data
  else if s == "€".data then "EUR".data
  else if s == "£".data then "GBP".data
  else if s == "¥".data then "JPY".data
  else if s == "₹".data then "INR".data
  else "USD".data

/-- Currency determination of `_extract_price` (lines 66-81): first glyph in
the matched price text via `re.search(r'[$€£¥₹]', ...)`; when absent, the
country-fragment checks `'.in/'`, `'.uk/'`, `'.de/' / '.fr/' / '.it/' / '.es/'`
against the lowercased URL; then the symbol-to-code table. -/
def currencyFromText (t url : Str) : Str :=
  let sym : Str :=
    match t.find? (fun c => glyphChars.contains c) with
    | some c => [c]
    | none =>
      if inStr ".in/".data (lowerStr url) then "₹".data
      else if inStr ".uk/".data (lowerStr url) then "£".data
      else if inStr ".de/".data (lowerStr url) || inStr ".fr/".data (lowerStr url)
              || inStr ".it/".data (lowerStr url) || inStr ".es/".data (lowerStr url) then "€".data
      else "USD".data
  currencyCodeOfSymbol sym

/-- `re.search(r'([\d,]+\.?\d*)', t)`: leftmost match of a run of digits or
commas, an optional dot, and further digits; `none` when no digit or comma
occurs in `t`. -/
def pricePatternSearch : Str → Option Str
  | [] => none
  | c :: rest =>
    if c.isDigit || c == ',' then
      let s := c :: rest
      let run1 := s.takeWhile (fun x => x.isDigit || x == ',')
      let after := s.dropWhile (fun x => x.isDigit || x == ',')
      some (run1 ++ (match after with
        | '.' :: r2 => '.' :: r2.takeWhile Char.isDigit
        | _ => []))
    else pricePatternSearch rest

/-- The two `re.sub` cleaning passes: strip currency glyphs, then keep only
digits, dots and commas. -/
def cleanNumericText (t : Str) : Str :=
  (t.filter (fun c => !glyphChars.contains c)).filter (fun c => c.isDigit || c == '.' || c == ',')

/-- The duplicated-price repair block of `_extract_price`: when the cleaned
string splits evenly into two identical halves keep the first half;
otherwise, when it is longer than 8 characters, replace it by the first
`[\d,]+\.?\d*` match if one exists. -/
def dedupRepair (t : Str) : Str :=
  if 0 < t.length then
    let half := t.length / 2
    if 0 < half ∧ t.take half = t.drop half then t.take half
    else if 8 < t.length then
      match pricePatternSearch t with
      | some m => m
      | none => t
    else t
  else t

/-- The numeric part of one loop iteration of `_extract_price`: clean,
repair duplicates, drop commas, convert with `float`; `none` models the
caught `ValueError`. -/
def tryParsePrice (t : Str) : Option PyFloat :=
  parsePyFloat ((dedupRepair (cleanNumericText t)).filter (fun c => c != ','))

example : tryParsePrice "₹37,490.00".data = some ⟨3749000, 2⟩ := by decide
example : tryParsePrice "37490.0037490.00".data = some ⟨3749000, 2⟩ := by decide
example : tryParsePrice "1,299".data = some ⟨1299, 0⟩ := by decide
example : tryParsePrice "N/A".data = none := by decide

end GenericScraper

namespace GenericScraper

/-- The selector loop of `_extract_price` (lines 58-107): walk the selector
list; for the first selector per iteration that matches an element, try the
numeric conversion of its stripped text; a conversion failure (`ValueError`)
falls through to the next selector. -/
def priceLoop (d : Doc) (url : Str) : List Sel → Option (PyFloat × Str)
  | [] => none
  | s :: rest =>
    match selectOne d s with
    | none => priceLoop d url rest
    | some e =>
      let t := pyStrip e.text
      match tryParsePrice t with
      | some p => some (p, currencyFromText t url)
      | none => priceLoop d url rest

def selSpanWhole : Sel := selTag1Cls "span" "a-price-whole"
def selSpanFraction : Sel := selTag1Cls "span" "a-price-fraction"
def selSpanSymbol : Sel := selTag1Cls "span" "a-price-symbol"

/-- The whole-part / fraction-part fallback of `_extract_price`
(lines 111-136): requires both `span.a-price-whole` and
`span.a-price-fraction`; concatenates `whole.fraction` (commas removed from
the whole part); currency from `span.a-price-symbol` if present, else INR
when the lowercased URL contains `".in/"`, else USD; `none` models both a
missing pair and a caught `ValueError` from `float`. -/
def wholeFractionPrice (d : Doc) (url : Str) : Option (PyFloat × Str) :=
  match selectOne d selSpanWhole, selectOne d selSpanFraction with
  | some w, some f =>
      let whole := (pyStrip w.text).filter (fun c => c != ',')
      let frac := pyStrip f.text
      let ccode :=
        match selectOne d selSpanSymbol with
        | some sym => currencyCodeOfSymbol (pyStrip sym.text)
        | none => if inStr ".in/".data (lowerStr url) then "INR".data else "USD".data
      (parsePyFloat (whole ++ '.' :: frac)).map (fun p => (p, ccode))
  | _, _ => none

/-- The terminal `ValueError("Could not extract price from page")`. -/
def priceErrMsg : Str := "Could not extract price from page".data

/-- `GenericScraper._extract_price`: selector loop, then whole/fraction
fallback, then the terminal error. -/
def extract_price (d : Doc) (url : Str) : Except Str (PyFloat × Str) :=
  match priceLoop d url PRICE_SELECTORS with
  | some r => .ok r
  | none =>
    match wholeFractionPrice d url with
    | some r => .ok r
    | none => .error priceErrMsg

/-- The selector loop of `_extract_title`. -/
def titleLoop (d : Doc) : List Sel → Option Str
  | [] => none
  | s :: rest =>
    match selectOne d s with
    | some e => some (pyStrip e.text)
    | none => titleLoop d rest

/-- `GenericScraper._extract_title`: selector loop, then the document's
`<title>` element, then `ValueError`. -/
def extract_title (d : Doc) : Except Str Str :=
  match titleLoop d TITLE_SELECTORS with
  | some t => .ok t
  | none =>
    match d.titleElem with
    | some te => .ok (pyStrip te.text)
    | none => .error "Could not extract product title from page".data

/-- The selector loop of `_extract_image_url`: an element with a `src`
attribute wins, else its `data-src` attribute; an element with neither is
skipped; absence of any match is `None` (the field is optional). -/
def imageLoop (d : Doc) : List Sel → Option Str
  | [] => none
  | s :: rest =>
    match selectOne d s with
    | some e =>
      match e.core.attrs.lookup "src".data with
      | some v => some v
      | none =>
        match e.core.attrs.lookup "data-src".data with
        | some v => some v
        | none => imageLoop d rest
    | none => imageLoop d rest

def extract_image_url (d : Doc) : Option Str := imageLoop d IMAGE_SELECTORS

end GenericScraper

/-- The unvalidated field tuple a strategy's `_extract_data` returns. -/
structure RawFields where
  name : Str
  price : PyFloat
  currency : Str
  main_image_url : Option Str
deriving DecidableEq, Repr

namespace GenericScraper

/-- `GenericScraper._extract_data`: price (with currency), then title, then
image; an uncaught `ValueError` from price or title extraction propagates. -/
def extract_data (d : Doc) (url : Str) : Except Str RawFields :=
  match extract_price d url with
  | .error e => .error e
  | .ok (p, c) =>
    match extract_title d with
    | .error e => .error e
    | .ok t => .ok ⟨t, p, c, extract_image_url d⟩

end GenericScraper

/-! ## BaseScraper._fetch_page (src/app/scrapers/base_scraper.py) -/

/-- Outcome of one HTTP GET at the `requests` level: a successful 2xx body,
or a `requests.RequestException` (timeout, connection failure, or a non-2xx
raised by `raise_for_status`) with its message. -/
inductive HttpResult
  | ok (body : Str)
  | err (msg : Str)
deriving DecidableEq, Repr

/-- The class of a Python exception escaping `_fetch_page`.  The method only
ever raises `requests.RequestException` (network failures are instances of
it, and the captcha-exhaustion branch raises it explicitly); no other class
exists in the repository. -/
inductive PyExcClass
  | requestException
deriving DecidableEq, Repr

/-- A raised Python exception: its class and its message. -/
structure PyExc where
  cls : PyExcClass
  msg : Str
deriving DecidableEq, Repr

/-- The bot-challenge check: the lowercased body contains `"captcha"` or
`"robot check"`. -/
def challenged (body : Str) : Bool :=
  inStr "captcha".data (lowerStr body) || inStr "robot check".data (lowerStr body)

/-- Message of the exception raised when the last attempt is challenged. -/
def captchaMsg : Str := "Captcha detected, could not bypass".data

/-- One non-final attempt: `inl` is a final outcome, `inr true` a
challenge-triggered retry (the user agent is re-drawn), `inr false` a
network-failure retry (the user agent is kept). -/
def fetchAttempt (resp : HttpResult) : Except PyExc Str ⊕ Bool :=
  match resp with
  | .ok body => if challenged body then .inr true else .inl (.ok body)
  | .err _ => .inr false

/-- The final attempt (`attempt = max_retries - 1`): a challenged body or a
network failure now raises. -/
def fetchLastAttempt (resp : HttpResult) : Except PyExc Str :=
  match resp with
  | .ok body =>
      if challenged body then .error ⟨.requestException, captchaMsg⟩ else .ok body
  | .err m => .error ⟨.requestException, m⟩

/-- Result of a `_fetch_page` call together with the `User-Agent` header
value in effect at each attempt actually performed. -/
structure FetchRun where
  result : Except PyExc Str
  uasUsed : List Str
deriving Repr

/-- `BaseScraper._fetch_page` with `max_retries = 3`, unrolled.  `responses`
gives the network outcome of each attempt, `uaChoice` the successive values
`random.choice(USER_AGENTS)` would deliver on challenge-triggered rotation,
and `ua0` the user agent drawn in `__init__`.  The sleeps and the `Referer`
header added from attempt 2 on have no observable effect on the result and
are not modelled. -/
def fetch_page (responses : Nat → HttpResult) (uaChoice : Nat → Str) (ua0 : Str) : FetchRun :=
  match fetchAttempt (responses 0) with
  | .inl r => ⟨r, [ua0]⟩
  | .inr rot0 =>
    let ua1 := if rot0 then uaChoice 0 else ua0
    match fetchAttempt (responses 1) with
    | .inl r => ⟨r, [ua0, ua1]⟩
    | .inr rot1 =>
      let ua2 := if rot1 then uaChoice 1 else ua1
      ⟨fetchLastAttempt (responses 2), [ua0, ua1, ua2]⟩

/-! ## URL parsing (urllib.parse.urlparse, as used by the factory) -/

/-- A character allowed after the first one of a URL scheme. -/
def validSchemeChar (c : Char) : Bool := c.isAlphanum || c == '+' || c == '-' || c == '.'

/-- The part of the URL before the first `':'`. -/
def schemeOf (url : Str) : Str := url.takeWhile (fun c => c != ':')

/-- `urlsplit`: when the text before the first `':'` is a well-formed scheme,
the remainder after the `':'`; otherwise the whole URL. -/
def splitSchemeRest (url : Str) : Str :=
  match url.dropWhile (fun c => c != ':') with
  | ':' :: rest =>
    (match schemeOf url with
     | [] => url
     | c0 :: cs => if c0.isAlpha && cs.all validSchemeChar then rest else url)
  | _ => url

/-- Text of the netloc component: after the scheme, the text between `"//"`
and the first `'/'`, `'?'` or `'#'`; empty when the URL has no `"//"`.
This is the text-extraction core of `urlsplit`; the unsafe-byte stripping
and the `ValueError` it can raise are layered on in `urlparseNetloc`. -/
def netlocOf (url : Str) : Str :=
  let rest := splitSchemeRest url
  if startsWithStr "//".data rest then
    (rest.drop 2).takeWhile (fun c => c != '/' && c != '?' && c != '#')
  else []

/-- `urlsplit` first removes every tab, carriage-return and newline from the
URL (`_UNSAFE_URL_BYTES_TO_REMOVE`). -/
def sanitizeUrl (url : Str) : Str :=
  url.filter (fun c => c != '\t' && c != '\r' && c != '\n')

/-- `urlsplit`'s IPv6 bracket check on the netloc: a `'['` without `']'` or
a `']'` without `'['`. -/
def invalidIpv6Netloc (n : Str) : Bool :=
  (n.contains '[' && !n.contains ']') || (n.contains ']' && !n.contains '[')

/-- `urlparse(url).netloc` as evaluated by Python: strip unsafe bytes,
extract the netloc text, and raise `ValueError("Invalid IPv6 URL")` when it
contains an unbalanced square bracket. -/
def urlparseNetloc (url : Str) : Except Str Str :=
  let n := netlocOf (sanitizeUrl url)
  if invalidIpv6Netloc n then .error "Invalid IPv6 URL".data else .ok n

/-- `urlparse(url).hostname`: the netloc with any userinfo (up to the last
`'@'`) and any `':'`-separated port removed, lowercased.  (IPv6 bracket
syntax is not modelled.) -/
def hostOf (url : Str) : Str :=
  let n := netlocOf url
  let afterUser := if n.contains '@' then (n.reverse.takeWhile (fun c => c != '@')).reverse else n
  lowerStr (afterUser.takeWhile (fun c => c != ':'))

example : netlocOf "https://www.amazon.in/dp/B0ABC".data = "www.amazon.in".data := by decide
example : hostOf "https://user@shop.example.com:8080/x".data = "shop.example.com".data := by decide

/-! ## ScraperFactory (src/app/scrapers/scraper_factory.py) -/

/-- The scraper classes instantiable by the factory. -/
inductive ScraperKind
  | amazon
  | generic
deriving DecidableEq, Repr

namespace ScraperFactory

/-- The registry after `discover_scrapers()`: the only discovered module is
`amazon_scraper.py` with `DOMAIN = ["amazon.com", "amazon.in"]`, and
`register` flattens the list into one string key per domain, in list order.
(The `isinstance(registered_domain, list)` branch of `get_scraper` is dead:
every stored key is a string.) -/
def registry : List (Str × ScraperKind) :=
  [("amazon.com".data, .amazon), ("amazon.in".data, .amazon)]

/-- `ScraperFactory.get_scraper`: the class of the first registered key that
is a substring of `urlparse(url).netloc`, else `GenericScraper`.  The
method wraps nothing in `try`: the `ValueError` `urlparse` raises on an
authority with an unbalanced square bracket propagates to the caller. -/
def get_scraper (url : Str) : Except Str ScraperKind :=
  match urlparseNetloc url with
  | .error e => .error e
  | .ok n =>
    match registry.find? (fun p => inStr p.1 n) with
    | some p => .ok p.2
    | none => .ok .generic

end ScraperFactory

/-! ## add_product (src/add_product.py) and validation (src/app/models/schemas.py) -/

/-- Outcome of `add_product`, abstracting everything after the scheme check
(database membership test, scrape, insert) into `pipeline`: the point being
modelled is that a URL failing the scheme check returns `False` before any
of the database or network work runs. -/
inductive AddOutcome (α : Type)
  | rejectedNoFetch
  | pipeline (r : α)

/-- The guard of `add_product`:
`url.startswith(("http://", "https://"))`. -/
def url_scheme_ok (url : Str) : Bool :=
  startsWithStr "http://".data url || startsWithStr "https://".data url

/-- `add_product`: reject non-`http(s)`-prefixed URLs before doing anything
else; otherwise run the rest of the pipeline. -/
def add_product {α : Type} (url : Str) (rest : Str → α) : AddOutcome α :=
  if url_scheme_ok url then .pipeline (rest url) else .rejectedNoFetch

/-- A validated `ProductData` record (pydantic model, schemas.py lines 6-12). -/
structure ProductRecord where
  url : Str
  name : Str
  price : PyFloat
  currency : Str
  main_image_url : Option Str
  timestamp : Nat
deriving DecidableEq, Repr

/-- Model of pydantic v1 `HttpUrl` validation: scheme `http` or `https`,
nonempty host, length at most 2083.  (Finer URL validation is elided; every
concrete URL used below passes or fails identically under both.) -/
def is_valid_http_url (s : Str) : Bool :=
  (schemeOf s == "http".data || schemeOf s == "https".data) &&
  !(hostOf s).isEmpty && s.length ≤ 2083

/-- Validation of `ProductData(**raw_data)` as `scrape()` performs it, over
the fields `_extract_data` produced plus the url and timestamp `scrape`
adds.  `url` must be a valid `HttpUrl` and `main_image_url`, when present,
too; `name` is any `str`, `price` any `float`, `currency` any `str` — the
schema declares no sign constraint on `price`. -/
def ProductData_validate (url : Str) (f : RawFields) (timestamp : Nat) :
    Except Str ProductRecord :=
  if !is_valid_http_url url then .error "url".data
  else
    match f.main_image_url with
    | some img =>
      if !is_valid_http_url img then .error "main_image_url".data
      else .ok ⟨url, f.name, f.price, f.currency, some img, timestamp⟩
    | none => .ok ⟨url, f.name, f.price, f.currency, none, timestamp⟩

/-! ## Amazon scraper (src/app/scrapers/amazon_scraper.py) -/

namespace AmazonScraper

/-- `self.url.split('/')` (split on every slash, empty segments kept). -/
def pySplitSlash : Str → List Str
  | [] => [[]]
  | c :: rest =>
    if c == '/' then [] :: pySplitSlash rest
    else
      match pySplitSlash rest with
      | [] => [[c]]
      | g :: gs => (c :: g) :: gs

/-- `self.url.split('/')[2].lower()`, the host part of a `scheme://host/...`
URL.  (The `IndexError` Python raises when the URL has fewer than two
slashes is not modelled; the factory only routes `scheme://`-shaped URLs
here.) -/
def pyDomain (url : Str) : Str := lowerStr ((pySplitSlash url).getD 2 [])

example : pyDomain "https://www.Amazon.in/dp/B0A".data = "www.amazon.in".data := by decide

/-- The Amazon-specific `price_selectors` list, in source order. -/
def price_selectors : List Sel := [
  selId "priceblock_ourprice",
  selId "priceblock_dealprice",
  .descend (sCls "a-price") (sCls "a-offscreen"),
  selId "price_inside_buybox",
  .descend (sCls "apexPriceToPay") (sCls "a-offscreen"),
  .descend (sCls "priceToPay") (sCls "a-offscreen"),
  .descend ⟨none, some "apex_desktop".data, [], []⟩ (sCls "a-offscreen"),
  .descend ⟨none, some "corePriceDisplay_desktop_feature_div".data, [], []⟩ (sCls "a-offscreen"),
  selCls "a-price-whole",
  selTag1Cls "span" "a-price-whole",
  selTag2Cls "span" "a-size-medium" "a-color-price",
  selTag1Cls "span" "a-color-price"]

/-- The Amazon cleaning passes: `re.sub(r'[$€£¥₹,]', '')` then
`re.sub(r'[^\d.]', '')`. -/
def amazonCleanNumeric (t : Str) : Str :=
  (t.filter (fun c => !(GenericScraper.glyphChars.contains c) && c != ',')).filter
    (fun c => c.isDigit || c == '.')

/-- Currency determination of the Amazon selector loop: first glyph, with
`'$'` as the default symbol; when the symbol is `'$'` the domain part of
the URL overrides the code (`.in` → INR, `.co.uk` → GBP,
`.de`/`.fr`/`.it`/`.es` → EUR). -/
def amazonCurrency (t url : Str) : Str :=
  let sym : Str :=
    match t.find? (fun c => GenericScraper.glyphChars.contains c) with
    | some c => [c]
    | none => "$".data
  let code := GenericScraper.currencyCodeOfSymbol sym
  if sym == "$".data then
    let domain := pyDomain url
    if inStr ".in".data domain then "INR".data
    else if inStr ".co.uk".data domain then "GBP".data
    else if inStr ".de".data domain || inStr ".fr".data domain
            || inStr ".it".data domain || inStr ".es".data domain then "EUR".data
    else code
  else code

/-- Selector loop of `Scraper._extract_price`; a `ValueError` from `float`
falls through to the next selector. -/
def priceLoop (d : Doc) (url : Str) : List Sel → Option (PyFloat × Str)
  | [] => none
  | s :: rest =>
    match selectOne d s with
    | none => priceLoop d url rest
    | some e =>
      let t := pyStrip e.text
      match parsePyFloat (amazonCleanNumeric t) with
      | some p => some (p, amazonCurrency t url)
      | none => priceLoop d url rest

/-- Whole/fraction fallback of the Amazon scraper (`soup.select(...)[0]` on
each part behaves as `select_one`); currency from `span.a-price-symbol`,
else INR when the URL's domain part contains `.in`, else USD. -/
def wholeFractionPrice (d : Doc) (url : Str) : Option (PyFloat × Str) :=
  match selectOne d GenericScraper.selSpanWhole, selectOne d GenericScraper.selSpanFraction with
  | some w, some f =>
      let whole := (pyStrip w.text).filter (fun c => c != ',')
      let frac := pyStrip f.text
      let ccode :=
        match selectOne d GenericScraper.selSpanSymbol with
        | some sym => GenericScraper.currencyCodeOfSymbol (pyStrip sym.text)
        | none => if inStr ".in".data (pyDomain url) then "INR".data else "USD".data
      (parsePyFloat (whole ++ '.' :: frac)).map (fun p => (p, ccode))
  | _, _ => none

/-- Optional `(\.\d+)?` tail of a numeric regex group: a dot followed by at
least one digit, greedily. -/
def fracOpt (s : Str) : Str :=
  match s with
  | '.' :: r =>
      let ds := r.takeWhile Char.isDigit
      if ds.isEmpty then [] else '.' :: ds
  | _ => []

/-- First match group of `₹\s*([\d,]+(\.\d+)?)` (`skipWs = true`) or of
`₹([\d,]+(\.\d+)?)` (`skipWs = false`) anywhere in `s`. -/
def rupeeScan (skipWs : Bool) : Str → Option Str
  | [] => none
  | '₹' :: rest =>
      let body := if skipWs then rest.dropWhile Char.isWhitespace else rest
      let run := body.takeWhile (fun c => c.isDigit || c == ',')
      if run.isEmpty then rupeeScan skipWs rest
      else some (run ++ fracOpt (body.drop run.length))
  | _ :: rest => rupeeScan skipWs rest

/-- The `rupee_patterns` loop over `str(soup)`: the `\s*` pattern first,
then the tight one (which can only match where the first also matches). -/
def rupeeRegexPrice (raw : Str) : Option Str :=
  match rupeeScan true raw with
  | some g => some g
  | none => rupeeScan false raw

/-- `#buyNewSection .a-color-price` fallback: Amazon clean passes and
`float`; USD unless the URL's domain part contains `.in`. -/
def buyNewPrice (d : Doc) (url : Str) : Option (PyFloat × Str) :=
  match selectOne d (.descend ⟨none, some "buyNewSection".data, [], []⟩ (sCls "a-color-price")) with
  | some e =>
      (parsePyFloat (amazonCleanNumeric (pyStrip e.text))).map
        (fun p => (p, if inStr ".in".data (pyDomain url) then "INR".data else "USD".data))
  | none => none

/-- `Scraper._extract_price`: the four tiers in order, then the terminal
`ValueError("Could not extract price from Amazon page")`.  The rupee-regex
tier runs only when the raw URL contains `".in"`. -/
def extract_price (d : Doc) (url : Str) : Except Str (PyFloat × Str) :=
  match priceLoop d url price_selectors with
  | some r => .ok r
  | none =>
    match wholeFractionPrice d url with
    | some r => .ok r
    | none =>
      match
        (if inStr ".in".data url then
          (rupeeRegexPrice d.raw).bind (fun g => parsePyFloat (g.filter (fun c => c != ',')))
        else none) with
      | some p => .ok (p, "INR".data)
      | none =>
        match buyNewPrice d url with
        | some r => .ok r
        | none => .error "Could not extract price from Amazon page".data

/-- `s.split(sep)[0]`: the text before the first occurrence of `sep`
(the whole string when `sep` does not occur). -/
def takeBeforeSep (sep : Str) : Str → Str
  | [] => []
  | s@(c :: rest) => if startsWithStr sep s then [] else c :: takeBeforeSep sep rest

/-- `Scraper._extract_title`: `#productTitle`, else the page title split at
`" : "`, else `ValueError`. -/
def extract_title (d : Doc) : Except Str Str :=
  match selectOne d (selId "productTitle") with
  | some e => .ok (pyStrip e.text)
  | none =>
    match d.titleElem with
    | some te => .ok (pyStrip (takeBeforeSep " : ".data te.text))
    | none => .error "Could not extract product title from Amazon page".data

/-- Simplified model of `list(json.loads(attr).keys())[0]` for the
`data-a-dynamic-image` attribute: the first key of a JSON object literal
(escape sequences inside the key are not interpreted); `none` models both
`JSONDecodeError` and an empty object. -/
def jsonFirstKey (s : Str) : Option Str :=
  match s.dropWhile Char.isWhitespace with
  | '\x7b' :: r =>
    (match r.dropWhile Char.isWhitespace with
     | '"' :: r3 =>
       let key := r3.takeWhile (fun c => c != '"')
       if (r3.drop key.length).isEmpty then none else some key
     | _ => none)
  | _ => none

/-- The trailing selector loop of `Scraper._extract_image_url`
(`#main-image`, `#imgTagWrapperId img`), accepting only a `src` attribute. -/
def imageFallback (d : Doc) : Option Str :=
  match selectOne d (selId "main-image") with
  | some e =>
    (match e.core.attrs.lookup "src".data with
     | some v => some v
     | none => imageFallbackTail d)
  | none => imageFallbackTail d
where
  imageFallbackTail (d : Doc) : Option Str :=
    match selectOne d (.descend ⟨none, some "imgTagWrapperId".data, [], []⟩ (sTag "img")) with
    | some e => e.core.attrs.lookup "src".data
    | none => none

/-- `Scraper._extract_image_url`: `#landingImage` or `#imgBlkFront`; its
`src`, else the first key of its `data-a-dynamic-image` JSON; then the
fallback selectors; `none` when nothing matches. -/
def extract_image_url (d : Doc) : Option Str :=
  let first :=
    match selectOne d (selId "landingImage") with
    | some e => some e
    | none => selectOne d (selId "imgBlkFront")
  match first with
  | some e =>
    (match e.core.attrs.lookup "src".data with
     | some v => some v
     | none =>
       match e.core.attrs.lookup "data-a-dynamic-image".data with
       | some j =>
         (match jsonFirstKey j with
          | some k => some k
          | none => imageFallback d)
       | none => imageFallback d)
  | none => imageFallback d

/-- Anchored-literal regex search: at each position of the haystack, when
`lit` is a prefix there and `tailMatch` accepts what follows it, the match
is produced; otherwise the scan advances one character (standard leftmost
regex semantics for a literal-anchored pattern). -/
def scanLit {α : Type} (lit : Str) (tailMatch : Str → Option α) : Str → Option α
  | [] => none
  | s@(_ :: rest) =>
    if startsWithStr lit s then
      match tailMatch (s.drop lit.length) with
      | some a => some a
      | none => scanLit lit tailMatch rest
    else scanLit lit tailMatch rest

/-- `(?:,\d+)*` after the leading digit run: greedily repeated groups of a
comma followed by digits. -/
def commaGroups : Str → Str
  | ',' :: rest =>
      let ds := rest.takeWhile Char.isDigit
      if ds.isEmpty then []
      else ',' :: ds ++ commaGroups (rest.dropWhile Char.isDigit)
  | _ => []
termination_by s => s.length
decreasing_by
  simp only [List.length_cons]
  have h := List.IsSuffix.length_le (List.dropWhile_suffix (l := rest) Char.isDigit)
  omega

/-- `\d+(?:\.\d+)?` at the head of `s`. -/
def numSimple (s : Str) : Option Str :=
  let ds := s.takeWhile Char.isDigit
  if ds.isEmpty then none else some (ds ++ fracOpt (s.drop ds.length))

/-- `\d+(?:,\d+)*` at the head of `s`. -/
def numComma (s : Str) : Option Str :=
  let ds := s.takeWhile Char.isDigit
  if ds.isEmpty then none else some (ds ++ commaGroups (s.drop ds.length))

/-- `\d+(?:,\d+)*(?:\.\d+)?` at the head of `s`. -/
def numCommaFrac (s : Str) : Option Str :=
  (numComma s).map (fun g => g ++ fracOpt (s.drop g.length))

/-- `"priceAmount":\s*(\d+(?:\.\d+)?)`. -/
def amzPat1 (h : Str) : Option Str :=
  scanLit ("\"priceAmount\":".data) (fun r => numSimple (r.dropWhile Char.isWhitespace)) h

/-- `\s*"₹\s*(\d+(?:,\d+)*(?:\.\d+)?)"` after a literal already consumed:
the group must be followed by the closing quote (the number grammar cannot
backtrack into a position exposing a quote, so greedy-then-check is exact). -/
def quotedRupeeNum (r : Str) : Option Str :=
  match r.dropWhile Char.isWhitespace with
  | '"' :: '₹' :: r3 =>
    let r4 := r3.dropWhile Char.isWhitespace
    (numCommaFrac r4).bind (fun g =>
      match r4.drop g.length with
      | '"' :: _ => some g
      | _ => none)
  | _ => none

/-- `"formattedPrice":\s*"₹\s*(\d+(?:,\d+)*(?:\.\d+)?)"`. -/
def amzPat2 (h : Str) : Option Str := scanLit ("\"formattedPrice\":".data) quotedRupeeNum h

/-- `"buyingPrice":\s*"₹\s*(\d+(?:,\d+)*(?:\.\d+)?)"`. -/
def amzPat3 (h : Str) : Option Str := scanLit ("\"buyingPrice\":".data) quotedRupeeNum h

/-- `id="priceblock_ourprice"[^>]*>₹\s*(\d+(?:,\d+)*(?:\.\d+)?)`. -/
def amzPat4 (h : Str) : Option Str :=
  scanLit ("id=\"priceblock_ourprice\"".data)
    (fun r =>
      match r.dropWhile (fun c => c != '>') with
      | '>' :: r2 =>
        (match r2 with
         | '₹' :: r3 => numCommaFrac (r3.dropWhile Char.isWhitespace)
         | _ => none)
      | _ => none) h

/-- `class="a-price-whole">(\d+(?:,\d+)*)</span><span class="a-price-fraction">(\d+)`,
already assembled into the `f"{g1-without-commas}.{g2}"` string the code
builds from the two groups. -/
def amzPat5 (h : Str) : Option Str :=
  scanLit ("class=\"a-price-whole\">".data)
    (fun r =>
      (numComma r).bind (fun g1 =>
        let mid := "</span><span class=\"a-price-fraction\">".data
        let r2 := r.drop g1.length
        if startsWithStr mid r2 then
          let ds := (r2.drop mid.length).takeWhile Char.isDigit
          if ds.isEmpty then none
          else some ((g1.filter (fun c => c != ',')) ++ '.' :: ds)
        else none)) h

/-- `₹\s*(\d+(?:,\d+)*(?:\.\d+)?)` over the raw HTML.  (The source's
`[\d,]+` run is modelled by the digit run with comma groups; both accept
exactly the strings the subsequent `float` conversion distinguishes.) -/
def amzPat6 (h : Str) : Option Str := rupeeScan true h

/-- The `price_patterns` raw-HTML loop of `Scraper._extract_data`: first
pattern (in source order) whose match text survives comma-stripping and
`float` conversion; a conversion failure moves to the next pattern. -/
def rawHtmlPrice (h : Str) : Option PyFloat :=
  let pats : List (Str → Option Str) :=
    [fun x => (amzPat1 x).map (fun g => g.filter (fun c => c != ',')),
     fun x => (amzPat2 x).map (fun g => g.filter (fun c => c != ',')),
     fun x => (amzPat3 x).map (fun g => g.filter (fun c => c != ',')),
     fun x => (amzPat4 x).map (fun g => g.filter (fun c => c != ',')),
     amzPat5,
     fun x => (amzPat6 x).map (fun g => g.filter (fun c => c != ','))]
  go pats
where
  go : List (Str → Option Str) → Option PyFloat
    | [] => none
    | f :: fs =>
      match (f h).bind parsePyFloat with
      | some p => some p
      | none => go fs

/-- `Scraper._extract_data`: the selector-based `_extract_price`; on its
`ValueError`, the raw-HTML pattern tier (only for URLs containing `".in"`,
with currency fixed by that test); an unextractable price raises before the
title is attempted. -/
def extract_data (d : Doc) (html url : Str) : Except Str RawFields :=
  match extract_price d url with
  | .ok (p, c) => (extract_title d).map (fun t => ⟨t, p, c, extract_image_url d⟩)
  | .error _ =>
    let currency := if inStr ".in".data url then "INR".data else "USD".data
    match (if inStr ".in".data url then rawHtmlPrice html else none) with
    | some p => (extract_title d).map (fun t => ⟨t, p, currency, extract_image_url d⟩)
    | none => .error "Could not extract price from page after trying all methods".data

end AmazonScraper

/-! ## Concrete fixture documents and URLs used by the theorems below -/

/-- A URL with no country-coded fragment and a valid `http(s)` scheme. -/
def urlPlain : Str := "https://shop.example.com/item".data

/-- A `<span class="a-price-whole">` element with text `"1,299"`. -/
def elemWhole1299 : Elem := ⟨⟨"span".data, none, ["a-price-whole".data], []⟩, [], "1,299".data⟩

/-- A `<span class="a-price-whole">` element with empty text. -/
def elemWholeEmpty : Elem := ⟨⟨"span".data, none, ["a-price-whole".data], []⟩, [], []⟩

/-- A `<span class="a-price-fraction">` element with text `"99"`. -/
def elemFraction99 : Elem := ⟨⟨"span".data, none, ["a-price-fraction".data], []⟩, [], "99".data⟩

/-- A document whose only price-bearing elements are the whole/fraction
pair `"1,299"` / `"99"`. -/
def docWholeFraction : Doc := ⟨[elemWhole1299, elemFraction99], none, []⟩

/-- The same pair but with an empty whole part (unparseable by the primary
selector loop). -/
def docWholeEmptyFraction : Doc := ⟨[elemWholeEmpty, elemFraction99], none, []⟩

/-- A document whose `.price` element carries the doubled price text. -/
def docDupPrice : Doc :=
  ⟨[⟨⟨"div".data, none, ["price".data], []⟩, [], "37490.0037490.00".data⟩], none, []⟩

/-- A document whose `.price` element carries glyph-free numeric text. -/
def docPlain37490 : Doc :=
  ⟨[⟨⟨"div".data, none, ["price".data], []⟩, [], "37490".data⟩], none, []⟩

/-- A `.price` element with unparseable text, for the skip-and-continue
behavior of the selector loop. -/
def elemNA : Elem := ⟨⟨"div".data, none, ["price".data], []⟩, [], "N/A".data⟩

/-- A document holding only `elemNA`. -/
def docNA : Doc := ⟨[elemNA], none, []⟩

/-- A URL whose netloc carries `amazon.in` as userinfo while the host is
`evil.com`. -/
def urlSpoof : Str := "https://amazon.in@evil.com/".data

/-- An Indian-market URL with no slash after the TLD. -/
def urlFlipkartBare : Str := "https://flipkart.in".data

/-! ## Helper lemmas -/

theorem startsWithStr_iff_append (p s : Str) :
    startsWithStr p s = true ↔ ∃ t, s = p ++ t := by
  induction p generalizing s with
  | nil => simp [startsWithStr]
  | cons a ps ih =>
    cases s with
    | nil => simp [startsWithStr]
    | cons c cs =>
      simp only [startsWithStr, Bool.and_eq_true, beq_iff_eq, ih, List.cons_append,
        List.cons.injEq]
      constructor
      · rintro ⟨rfl, t, rfl⟩
        exact ⟨t, rfl, rfl⟩
      · rintro ⟨t, rfl, rfl⟩
        exact ⟨rfl, t, rfl⟩

theorem schemeOf_http_append (t : Str) : schemeOf ("http://".data ++ t) = "http".data := rfl

theorem schemeOf_https_append (t : Str) : schemeOf ("https://".data ++ t) = "https".data := rfl

/-! ## Claim theorems -/

/-- C1 (counterexample).  The claim says a zero or negative price always
yields a `ValidationError` and never a record; but `ProductData` declares
`price: float` with no sign constraint, so validation of raw fields with
price value `0` succeeds and emits a record carrying price `0`. -/
theorem C1_counterexample :
    ProductData_validate "https://example.com/p".data
        ⟨"Widget".data, ⟨0, 0⟩, "USD".data, none⟩ 0 =
      .ok ⟨"https://example.com/p".data, "Widget".data, ⟨0, 0⟩, "USD".data, none, 0⟩ ∧
    PyFloat.toRat ⟨0, 0⟩ = 0 := by
  exact ⟨rfl, by norm_num [PyFloat.toRat]⟩

/-- C1 (amended).  The validation step checks only that `url` (and the
image URL, when present) is a well-formed http(s) URL; the price is passed
through unexamined, so any raw fields with a valid URL validate
successfully and the emitted record carries the input price unchanged —
including zero and negative prices. -/
theorem C1_validation_ignores_price_sign (url : Str) (f : RawFields) (ts : Nat)
    (hurl : is_valid_http_url url = true)
    (himg : (f.main_image_url.map is_valid_http_url).getD true = true) :
    ProductData_validate url f ts = .ok ⟨url, f.name, f.price, f.currency, f.main_image_url, ts⟩ := by
  cases f with
  | mk name price currency img =>
    cases img with
    | none => simp [ProductData_validate, hurl]
    | some i =>
      have himg' : is_valid_http_url i = true := by simpa using himg
      simp [ProductData_validate, hurl, himg']

/-- C1 (witness): a record with a strictly negative price passes validation. -/
theorem C1_validation_ignores_price_sign_witness :
    ProductData_validate "https://example.com/p".data
        ⟨"Widget".data, ⟨-5, 0⟩, "USD".data, none⟩ 7 =
      .ok ⟨"https://example.com/p".data, "Widget".data, ⟨-5, 0⟩, "USD".data, none, 7⟩ ∧
    PyFloat.toRat ⟨-5, 0⟩ < 0 :=
  ⟨C1_validation_ignores_price_sign _ _ _ (by decide) (by decide),
   by norm_num [PyFloat.toRat]⟩

/-- C3 (confirmed).  Even-split duplicate repair: for every nonempty
cleaned numeric string doubled back-to-back, the repair step keeps exactly
the first half; and a document whose matched `.price` element carries the
text `"37490.0037490.00"` extracts to the decimal value 37490.00. -/
theorem C3_even_split_duplicate_repair :
    (∀ u : Str, u ≠ [] → GenericScraper.dedupRepair (u ++ u) = u) ∧
    GenericScraper.extract_price docDupPrice urlPlain = .ok (⟨3749000, 2⟩, "USD".data) ∧
    PyFloat.toRat ⟨3749000, 2⟩ = 37490 := by
  refine ⟨?_, rfl, by norm_num [PyFloat.toRat]⟩
  intro u hu
  have hu' : 0 < u.length := List.length_pos.mpr hu
  have hlen : (u ++ u).length = u.length + u.length := List.length_append u u
  have hhalf : (u ++ u).length / 2 = u.length := by omega
  have htake : (u ++ u).take u.length = u := List.take_left u u
  have hdrop : (u ++ u).drop u.length = u := List.drop_left u u
  have hpos : 0 < (u ++ u).length := by omega
  have hhalf' : (u.length + u.length) / 2 = u.length := by omega
  simp [GenericScraper.dedupRepair, hhalf, hhalf', htake, hdrop, hpos, hu']

/-- C3 (witness): the repair applied to the concrete doubled string. -/
theorem C3_even_split_duplicate_repair_witness :
    GenericScraper.dedupRepair ("37490.00".data ++ "37490.00".data) = "37490.00".data :=
  C3_even_split_duplicate_repair.1 "37490.00".data (by decide)

/-- C8 (counterexample).  The claim says a glyph-free document fetched from
a URL containing a `".in"` domain fragment yields INR; but the code tests
for the substring `".in/"` (with a trailing slash), so the bare URL
`https://flipkart.in` — which contains `".in"` — yields USD. -/
theorem C8_counterexample :
    GenericScraper.extract_price docPlain37490 urlFlipkartBare = .ok (⟨37490, 0⟩, "USD".data) ∧
    inStr ".in".data (lowerStr urlFlipkartBare) = true ∧
    ("37490".data.find? (fun c => GenericScraper.glyphChars.contains c)) = none ∧
    "USD".data ≠ "INR".data :=
  ⟨rfl, by decide, by decide, by decide⟩

/-- C8 (amended).  When the matched price text contains no currency glyph
and the lowercased source URL contains the substring `".in/"`, the generic
strategy's currency determination yields `"INR"`. -/
theorem C8_no_glyph_dot_in_slash_gives_inr (t url : Str)
    (hglyph : t.find? (fun c => GenericScraper.glyphChars.contains c) = none)
    (hin : inStr ".in/".data (lowerStr url) = true) :
    GenericScraper.currencyFromText t url = "INR".data := by
  simp only [GenericScraper.currencyFromText]
  rw [hglyph, hin]
  rfl

/-- C8 (witness): glyph-free text with an Indian product URL gives INR. -/
theorem C8_no_glyph_dot_in_slash_gives_inr_witness :
    GenericScraper.currencyFromText "37490".data "https://www.flipkart.in/item".data = "INR".data :=
  C8_no_glyph_dot_in_slash_gives_inr _ _ (by decide) (by decide)

/-- The class of the exception carried by a failed fetch result. -/
def excClassOf : Except PyExc Str → Option PyExcClass
  | .error e => some e.cls
  | .ok _ => none

/-- C2 (counterexample).  The claim says exhausted-challenge failures carry
a distinct `ChallengeError` kind that callers can tell apart from the
generic network-failure kind; but both a fully-challenged run and a pure
network-failure run raise the same class (`requests.RequestException`) —
only the message differs, so no distinct kind exists. -/
theorem C2_counterexample :
    (fetch_page (fun _ => .ok "please solve this CAPTCHA".data) (fun _ => "U".data) "U".data).result =
      .error ⟨.requestException, captchaMsg⟩ ∧
    (fetch_page (fun _ => .err "connection refused".data) (fun _ => "U".data) "U".data).result =
      .error ⟨.requestException, "connection refused".data⟩ ∧
    excClassOf (fetch_page (fun _ => .ok "please solve this CAPTCHA".data) (fun _ => "U".data) "U".data).result =
      excClassOf (fetch_page (fun _ => .err "connection refused".data) (fun _ => "U".data) "U".data).result :=
  ⟨rfl, rfl, rfl⟩

/-- C2 (amended).  When every one of the three attempts returns a
successfully fetched but challenged body, `_fetch_page` raises a
`requests.RequestException` — the same exception class as network
failures — whose message is `"Captcha detected, could not bypass"`;
callers can distinguish the two cases only by that message. -/
theorem C2_all_challenged_raises_requestException
    (responses : Nat → HttpResult) (uaChoice : Nat → Str) (ua0 : Str) (b0 b1 b2 : Str)
    (h0 : responses 0 = .ok b0) (hc0 : challenged b0 = true)
    (h1 : responses 1 = .ok b1) (hc1 : challenged b1 = true)
    (h2 : responses 2 = .ok b2) (hc2 : challenged b2 = true) :
    (fetch_page responses uaChoice ua0).result = .error ⟨.requestException, captchaMsg⟩ := by
  simp [fetch_page, fetchAttempt, fetchLastAttempt, h0, hc0, h1, hc1, h2, hc2]

/-- C2 (witness): a run in which all three bodies are challenge pages. -/
theorem C2_all_challenged_raises_requestException_witness :
    (fetch_page (fun _ => .ok "robot check ahead".data) (fun _ => "U".data) "UA".data).result =
      .error ⟨.requestException, captchaMsg⟩ :=
  C2_all_challenged_raises_requestException _ _ _ _ _ _ rfl (by decide) rfl (by decide) rfl (by decide)

/-- C7 (confirmed).  A challenged first attempt followed by a clean second
attempt returns the second body, and the user agent in effect at the second
attempt is the freshly drawn `random.choice` value, not the initial one. -/
theorem C7_challenged_then_clean_returns_second_body
    (responses : Nat → HttpResult) (uaChoice : Nat → Str) (ua0 : Str) (b0 b1 : Str)
    (h0 : responses 0 = .ok b0) (hc0 : challenged b0 = true)
    (h1 : responses 1 = .ok b1) (hc1 : challenged b1 = false) :
    fetch_page responses uaChoice ua0 = ⟨.ok b1, [ua0, uaChoice 0]⟩ := by
  simp [fetch_page, fetchAttempt, h0, hc0, h1, hc1]

/-- C7 (witness): a concrete captcha-then-clean run returns the clean body
with the rotated user agent on the second attempt. -/
theorem C7_challenged_then_clean_returns_second_body_witness :
    fetch_page
        (fun i => if i == 0 then .ok "please solve this CAPTCHA".data else .ok "<html>ok</html>".data)
        (fun _ => "UA-B".data) "UA-A".data =
      ⟨.ok "<html>ok</html>".data, ["UA-A".data, "UA-B".data]⟩ :=
  C7_challenged_then_clean_returns_second_body _ _ _ _ _ rfl (by decide) rfl (by decide)

/-- C5 (confirmed).  `add_product` tests
`url.startswith(("http://", "https://"))` first, so every URL whose scheme
is neither `http` nor `https` is rejected before the database or any
network access is touched. -/
theorem C5_nonhttp_scheme_rejected_before_fetch {α : Type} (url : Str) (rest : Str → α)
    (hh : schemeOf url ≠ "http".data) (hs : schemeOf url ≠ "https".data) :
    add_product url rest = .rejectedNoFetch := by
  have hok : url_scheme_ok url = false := by
    unfold url_scheme_ok
    cases h1 : startsWithStr "http://".data url with
    | true =>
      obtain ⟨t, rfl⟩ := (startsWithStr_iff_append _ _).mp h1
      exact absurd (schemeOf_http_append t) hh
    | false =>
      cases h2 : startsWithStr "https://".data url with
      | true =>
        obtain ⟨t, rfl⟩ := (startsWithStr_iff_append _ _).mp h2
        exact absurd (schemeOf_https_append t) hs
      | false => rfl
  simp [add_product, hok]

/-- C5 (witness): an `ftp`-scheme URL is rejected with no pipeline work. -/
theorem C5_nonhttp_scheme_rejected_before_fetch_witness :
    add_product "ftp://files.example.com/p".data (fun _ => (0 : Nat)) = .rejectedNoFetch :=
  C5_nonhttp_scheme_rejected_before_fetch _ _ (by decide) (by decide)

/-- C4 (counterexample).  The claim's scenario — primary selectors find
nothing while a whole/fraction pair `"1,299"` / `"99"` exists — cannot
occur: the primary list itself contains `.a-price-whole`, so on a document
whose only price-bearing elements are that pair the primary loop matches
the whole element and returns 1299.0, not the claimed 1299.99. -/
theorem C4_counterexample :
    selectOne docWholeFraction (selCls "a-price-whole") = some elemWhole1299 ∧
    GenericScraper.extract_price docWholeFraction urlPlain = .ok (⟨1299, 0⟩, "USD".data) ∧
    PyFloat.toRat ⟨1299, 0⟩ ≠ (129999 : ℚ) / 100 :=
  ⟨rfl, rfl, by norm_num [PyFloat.toRat]⟩

/-- C4 (amended).  On a document whose only price-bearing elements are a
whole/fraction pair, the primary selector `.a-price-whole` consumes the
whole element first: whole text `"1,299"` yields price 1299.0 via the
primary tier.  The concatenation fallback is reached only when the whole
element's own text fails numeric parsing — e.g. an empty whole part with
fraction `"99"` yields 0.99 assembled as `".99"`. -/
theorem C4_whole_fraction_reached_only_on_unparseable_whole :
    GenericScraper.extract_price docWholeFraction urlPlain = .ok (⟨1299, 0⟩, "USD".data) ∧
    PyFloat.toRat ⟨1299, 0⟩ = 1299 ∧
    GenericScraper.extract_price docWholeEmptyFraction urlPlain = .ok (⟨99, 2⟩, "USD".data) ∧
    PyFloat.toRat ⟨99, 2⟩ = (99 : ℚ) / 100 :=
  ⟨rfl, by norm_num [PyFloat.toRat], rfl, by norm_num [PyFloat.toRat]⟩

/-- C6 (counterexample).  Two failures of the claim at concrete inputs.
Dispatch is not on the URL's host: the code matches registered keys against
`urlparse(url).netloc`, which includes userinfo, so for
`https://amazon.in@evil.com/` the host is `evil.com` — matched by no
registered key, which per the claim demands the GenericScraper — yet the
netloc contains `amazon.in` and the Amazon scraper is returned.  And
`get_scraper` does not "never raise": for `https://[x/` the netloc holds an
unbalanced bracket and `urlparse` raises `ValueError("Invalid IPv6 URL")`,
which nothing in `get_scraper` catches. -/
theorem C6_counterexample :
    ScraperFactory.get_scraper urlSpoof = .ok .amazon ∧
    hostOf urlSpoof = "evil.com".data ∧
    (ScraperFactory.registry.all (fun p => !(inStr p.1 (hostOf urlSpoof)))) = true ∧
    ScraperKind.amazon ≠ ScraperKind.generic ∧
    ScraperFactory.get_scraper "https://[x/".data = .error "Invalid IPv6 URL".data :=
  ⟨rfl, by decide, by decide, by decide, rfl⟩

/-- C6 (amended).  For every URL on which `urlparse` succeeds, `get_scraper`
returns the strategy of the first registered domain key (in registration
order) that is a substring of the URL's netloc (the authority component,
userinfo and port included, computed after `urlsplit` strips tab, CR and
LF); when no registered key is a substring of the netloc it returns the
GenericScraper.  It is not exception-free: when the netloc contains an
unbalanced square bracket, `urlparse` raises
`ValueError("Invalid IPv6 URL")` and `get_scraper` propagates it. -/
theorem C6_get_scraper_first_netloc_match (url : Str) :
    (ScraperFactory.get_scraper url = .error "Invalid IPv6 URL".data ∧
      invalidIpv6Netloc (netlocOf (sanitizeUrl url)) = true) ∨
    (∃ n, urlparseNetloc url = .ok n ∧
      ((ScraperFactory.get_scraper url = .ok .generic ∧
        (ScraperFactory.registry.all (fun p => !(inStr p.1 n))) = true) ∨
       (∃ i : Fin ScraperFactory.registry.length,
         inStr (ScraperFactory.registry.get i).1 n = true ∧
         ((ScraperFactory.registry.take (i : Nat)).all (fun p => !(inStr p.1 n))) = true ∧
         ScraperFactory.get_scraper url = .ok (ScraperFactory.registry.get i).2))) := by
  cases hbad : invalidIpv6Netloc (netlocOf (sanitizeUrl url)) with
  | true =>
    left
    exact ⟨by simp [ScraperFactory.get_scraper, urlparseNetloc, hbad], rfl⟩
  | false =>
    right
    refine ⟨netlocOf (sanitizeUrl url), by simp [urlparseNetloc, hbad], ?_⟩
    cases b1 : inStr "amazon.com".data (netlocOf (sanitizeUrl url)) with
    | true =>
      right
      refine ⟨⟨0, by decide⟩, b1, rfl, ?_⟩
      simp [ScraperFactory.get_scraper, urlparseNetloc, hbad, ScraperFactory.registry,
        List.find?, b1]
    | false =>
      cases b2 : inStr "amazon.in".data (netlocOf (sanitizeUrl url)) with
      | true =>
        right
        refine ⟨⟨1, by decide⟩, b2, ?_, ?_⟩
        · simp [ScraperFactory.registry, b1]
        · simp [ScraperFactory.get_scraper, urlparseNetloc, hbad, ScraperFactory.registry,
            List.find?, b1, b2]
      | false =>
        left
        constructor
        · simp [ScraperFactory.get_scraper, urlparseNetloc, hbad, ScraperFactory.registry,
            List.find?, b1, b2]
        · simp [ScraperFactory.registry, b1, b2]

/-- C9 (confirmed).  Extraction is deterministic over a fixed document:
both extractors are pure functions of the parsed document, the raw markup
and the source URL (no randomness or clock is consulted — those enter only
in header selection and in the timestamp added by `scrape`), so two runs on
equal inputs produce identical name, price, currency and image fields. -/
theorem C9_extract_data_deterministic (d1 d2 : Doc) (h1 h2 url1 url2 : Str)
    (hd : d1 = d2) (hh : h1 = h2) (hu : url1 = url2) :
    GenericScraper.extract_data d1 url1 = GenericScraper.extract_data d2 url2 ∧
    AmazonScraper.extract_data d1 h1 url1 = AmazonScraper.extract_data d2 h2 url2 := by
  subst hd; subst hh; subst hu
  exact ⟨rfl, rfl⟩

/-- C9 (witness): two runs of each extractor on a concrete document. -/
theorem C9_extract_data_deterministic_witness :
    GenericScraper.extract_data docDupPrice urlPlain = GenericScraper.extract_data docDupPrice urlPlain ∧
    AmazonScraper.extract_data docDupPrice docDupPrice.raw urlPlain =
      AmazonScraper.extract_data docDupPrice docDupPrice.raw urlPlain :=
  C9_extract_data_deterministic _ _ _ _ _ _ rfl rfl rfl

/-- C10 (confirmed).  A primary selector whose matched element has
unparseable cleaned text does not abort `_extract_price`: that iteration is
skipped and the loop continues with the remaining selectors; and the whole
extraction either succeeds or fails with exactly the terminal
`"Could not extract price from page"` error after all tiers are exhausted —
no other failure can escape. -/
theorem C10_unparseable_match_skipped_and_only_terminal_error :
    (∀ (d : Doc) (url : Str) (s : Sel) (rest : List Sel) (e : Elem),
      selectOne d s = some e → GenericScraper.tryParsePrice (pyStrip e.text) = none →
      GenericScraper.priceLoop d url (s :: rest) = GenericScraper.priceLoop d url rest) ∧
    (∀ (d : Doc) (url : Str),
      (∃ r, GenericScraper.extract_price d url = .ok r) ∨
      GenericScraper.extract_price d url = .error GenericScraper.priceErrMsg) := by
  constructor
  · intro d url s rest e hsel hparse
    simp [GenericScraper.priceLoop, hsel, hparse]
  · intro d url
    cases hp : GenericScraper.priceLoop d url GenericScraper.PRICE_SELECTORS with
    | some r => exact .inl ⟨r, by simp [GenericScraper.extract_price, hp]⟩
    | none =>
      cases hw : GenericScraper.wholeFractionPrice d url with
      | some r => exact .inl ⟨r, by simp [GenericScraper.extract_price, hp, hw]⟩
      | none => exact .inr (by simp [GenericScraper.extract_price, hp, hw])

/-- C10 (witness): a `.price` match with text `"N/A"` is skipped and the
loop proceeds to the rest of the selector list. -/
theorem C10_unparseable_match_skipped_witness :
    GenericScraper.priceLoop docNA urlPlain (selCls "price" :: [selCls "product-price"]) =
      GenericScraper.priceLoop docNA urlPlain [selCls "product-price"] :=
  C10_unparseable_match_skipped_and_only_terminal_error.1 docNA urlPlain
    (selCls "price") [selCls "product-price"] elemNA (by decide) (by decide)
